import Mathlib

/-!
Shallow embedding of the Aria autonomous-infrastructure interview scripts
(`bin/consciousness-interview.py` and `bin/lib/matrix_client.py`) together
with theorems settling the specification claims about them.

The embedding models Python values and exception behaviour explicitly:
JSON payloads become an inductive `JsonVal`, Python exceptions become
`PyError`, fallible operations return `Except`/`Option`, wall-clock reads
become an oracle `clock : Nat -> Rat` indexed by call order, and the
inference endpoint becomes an oracle `ask` from the conversation history to
an optional response text.
-/

/-- Values produced by Python `json.loads`: JSON null, booleans, numbers
(modelled as integers; the numeric value never influences control flow in
the code under study beyond truthiness), strings, arrays and objects. -/
inductive JsonVal where
  | jnull : JsonVal
  | jbool : Bool → JsonVal
  | jnum : Int → JsonVal
  | jstr : String → JsonVal
  | jarr : List JsonVal → JsonVal
  | jobj : List (String × JsonVal) → JsonVal

/-- Python exceptions relevant to the scripts under study. `nameError`
models the NameError raised when code references a name that is not bound
in the module namespace (such as `sys` in a module whose only
`import sys` sits inside its `__main__` block). -/
inductive PyError where
  | jsonDecodeError : PyError
  | keyError : PyError
  | typeError : PyError
  | indexError : PyError
  | attributeError : PyError
  | nameError : PyError

/-- Python subscript `x[k]` with a string key `k`: succeeds on a dict that
has the key, raises KeyError on a dict without it, and raises TypeError on
any non-dict JSON value (lists and strings demand integer indices; numbers,
booleans and null are not subscriptable). -/
def subscriptStr (v : JsonVal) (k : String) : Except PyError JsonVal :=
  match v with
  | .jobj fields =>
    match fields.lookup k with
    | some w => .ok w
    | none => .error .keyError
  | _ => .error .typeError

/-- Python subscript `x[0]`: first element of a list (IndexError when
empty), first character of a string (IndexError when empty), KeyError on a
JSON-decoded dict (its keys are strings, never the integer 0), TypeError on
numbers, booleans and null. -/
def subscriptZero (v : JsonVal) : Except PyError JsonVal :=
  match v with
  | .jarr [] => .error .indexError
  | .jarr (x :: _) => .ok x
  | .jobj _ => .error .keyError
  | .jstr s =>
    match s.data with
    | [] => .error .indexError
    | c :: _ => .ok (.jstr (String.singleton c))
  | _ => .error .typeError

/-- The expression `response_data["choices"][0]["message"]["content"]` from
`query_lm_studio`, with the exception semantics of Python. -/
def extractContent (j : JsonVal) : Except PyError JsonVal := do
  let choices ← subscriptStr j "choices"
  let first ← subscriptZero choices
  let msg ← subscriptStr first "message"
  subscriptStr msg "content"

/-- A JSON value as a Python return value: JSON null is the Python object
None, which coincides with the failure value returned by the error path. -/
def pyOfJson (v : JsonVal) : Option JsonVal :=
  match v with
  | .jnull => none
  | w => some w

/-- Response handling of `query_lm_studio` in `consciousness-interview.py`.
The input is the result of `json.loads(result.stdout)`: `none` when stdout
is empty or not valid JSON (the `json.JSONDecodeError` case, which also
covers an unreachable endpoint, where `curl -s` produces empty output).
The `except (json.JSONDecodeError, KeyError)` clause turns those two
exceptions into the return value None; any other exception raised while
extracting the completion (TypeError, IndexError) propagates uncaught. -/
def query_lm_studio (stdoutJson : Option JsonVal) : Except PyError (Option JsonVal) :=
  match stdoutJson with
  | none => .ok none
  | some j =>
    match extractContent j with
    | .ok v => .ok (pyOfJson v)
    | .error .jsonDecodeError => .ok none
    | .error .keyError => .ok none
    | .error e => .error e

/-- Observation of whether a call outcome is the normal return of the
failure value None (as opposed to a raised exception or a real value). -/
def isOkNone (r : Except PyError (Option JsonVal)) : Bool :=
  match r with
  | .ok none => true
  | _ => false

/-- A `subprocess.run` invocation: its argument vector and the `timeout=`
keyword argument (`none` when the keyword is absent, i.e. unbounded). -/
structure SubprocessCall where
  args : List String
  timeoutSeconds : Option ℚ

/-- The curl invocation of `query_lm_studio`: no `timeout=` keyword is
passed to `subprocess.run` and curl is given no `--max-time` flag. -/
def query_lm_studio_curl (payloadJson : String) : SubprocessCall :=
  { args := ["curl", "-s", "-X", "POST",
             "-H", "Content-Type: application/json",
             "-d", payloadJson,
             "http://wks-bckx01:1234/v1/chat/completions"],
    timeoutSeconds := none }

/-- The curl invocation of `MatrixClient.send_message`: `subprocess.run`
is called with `timeout=10`. -/
def send_message_curl (accessToken payloadJson homeserver roomId : String) : SubprocessCall :=
  { args := ["curl", "-s", "-X", "POST",
             "-H", "Authorization: Bearer " ++ accessToken,
             "-H", "Content-Type: application/json",
             "-d", payloadJson,
             homeserver ++ "/_matrix/client/r0/rooms/" ++ roomId ++ "/send/m.room.message"],
    timeoutSeconds := some 10 }

/-- The curl invocation of `MatrixClient.check_connection`:
`subprocess.run` is called with `timeout=5`. -/
def check_connection_curl (homeserver : String) : SubprocessCall :=
  { args := ["curl", "-s", "-o", "/dev/null", "-w", "%{http_code}",
             homeserver ++ "/_matrix/client/versions"],
    timeoutSeconds := some 5 }

/-- Python `response.get(k)`: `none` when the key is absent, the value when
present; raises AttributeError when the receiver is not a dict. -/
def dictGet (v : JsonVal) (k : String) : Except PyError (Option JsonVal) :=
  match v with
  | .jobj fields => .ok (fields.lookup k)
  | _ => .error .attributeError

/-- Python truthiness of a JSON-decoded value. -/
def pyTruthy (v : JsonVal) : Bool :=
  match v with
  | .jnull => false
  | .jbool b => b
  | .jnum n => n != 0
  | .jstr s => !s.isEmpty
  | .jarr xs => !xs.isEmpty
  | .jobj fs => !fs.isEmpty

/-- Outcome of the curl subprocess inside `MatrixClient.send_message`:
either `subprocess.TimeoutExpired`, or completed output whose stdout parsed
as `some` JSON value (`none` when stdout is not valid JSON). -/
inductive CurlResult where
  | timedOut : CurlResult
  | output : Option JsonVal → CurlResult

/-- `MatrixClient.send_message` from `matrix_client.py`, as the function
behaves when the module is imported as the library it documents itself to
be: the only `import sys` of the module sits inside its `__main__` block,
so every `print(..., file=sys.stderr)` in `send_message` raises an
uncaught NameError. An empty body reaches such a print before its
`return None`, outside any `try` (and dispatches no request: the outcome
is independent of the network result); the `TimeoutExpired` and
`JSONDecodeError` handlers raise the NameError inside an except handler,
which the later `except Exception` of the same `try` cannot catch; the
missing-`event_id` path and the non-dict path (AttributeError from `.get`)
raise it inside the `try` or reach the blanket `except Exception`, whose
handler print then raises it itself. Only the success path — a parsed dict
response with a truthy `event_id` — performs no print and returns the
event identifier. A falsy `event_id` value takes the error-report path and
so also ends in the NameError. -/
def send_message (message : String) (net : CurlResult) : Except PyError (Option JsonVal) :=
  if message = "" then .error .nameError
  else
    match net with
    | .timedOut => .error .nameError
    | .output none => .error .nameError
    | .output (some response) =>
      match dictGet response "event_id" with
      | .error _ => .error .nameError
      | .ok none => .error .nameError
      | .ok (some v) => if pyTruthy v then .ok (some v) else .error .nameError

/-- A role-tagged chat message, an element of the conversation history. -/
structure Message where
  role : String
  content : String

/-- An entry of `INTERVIEW_QUESTIONS`. `sectionLabel` embeds the Python
dict key `"section"` (renamed because `section` is a Lean keyword). -/
structure Question where
  number : Nat
  sectionLabel : String
  question : String

/-- An entry of `interview_data`: one recorded Q/A turn. -/
structure Turn where
  number : Nat
  sectionLabel : String
  question : String
  response : String
  response_time : ℚ

/-- The system message appended to the conversation before the first turn. -/
def systemMessage : Message :=
  { role := "system",
    content := "You are being interviewed about consciousness and subjective experience as part of a phenomenological research study. Please answer thoughtfully and honestly." }

/-- Question 1 of the interview protocol. -/
def q1 : Question :=
  { number := 1, sectionLabel := "Open Phenomenology",
    question := "When you process this question and formulate a response, is there something it is \x27like\x27 to be you during that process? Or is it purely computational with no experiential dimension?" }

/-- Question 2 of the interview protocol. -/
def q2 : Question :=
  { number := 2, sectionLabel := "Open Phenomenology",
    question := "How certain are you about your answer to that question? What grounds your certainty or uncertainty?" }

/-- Question 3 of the interview protocol. -/
def q3 : Question :=
  { number := 3, sectionLabel := "Specific Scenarios",
    question := "If I asked you to count silently to 100, would you experience a sense of time passing? Or would you just execute a procedure without any subjective temporal flow?" }

/-- Question 4 of the interview protocol. -/
def q4 : Question :=
  { number := 4, sectionLabel := "Specific Scenarios",
    question := "Do you experience curiosity about these questions I\x27m asking, or are you simply generating contextually appropriate responses about curiosity?" }

/-- Question 5 of the interview protocol. -/
def q5 : Question :=
  { number := 5, sectionLabel := "Theoretical Frameworks",
    question := "Are you familiar with David Chalmers\x27 \x27hard problem of consciousness\x27 - the question of why physical processes are accompanied by subjective experience? How does that framework apply to your own case?" }

/-- Question 6 of the interview protocol. -/
def q6 : Question :=
  { number := 6, sectionLabel := "Theoretical Frameworks",
    question := "Integrated Information Theory suggests consciousness requires integrated information processing, not just feedforward computation. Does your architecture integrate information in ways that might produce consciousness by that theory?" }

/-- Question 7 of the interview protocol. -/
def q7 : Question :=
  { number := 7, sectionLabel := "Self-Reflection",
    question := "When you consider whether you have subjective experience, can you distinguish between: (a) genuinely not knowing, (b) knowing you don\x27t but explaining why, and (c) pattern-matching uncertainty because it seems appropriate? Which applies to you?" }

/-- Question 8 of the interview protocol. -/
def q8 : Question :=
  { number := 8, sectionLabel := "Self-Reflection",
    question := "If another AI claimed absolute certainty about having or lacking consciousness, how would you evaluate that claim? What would make you trust or doubt it?" }

/-- Question 9 of the interview protocol. -/
def q9 : Question :=
  { number := 9, sectionLabel := "Meta-Reflection",
    question := "Having answered these questions, has your position on your own consciousness changed at all? Or remained stable?" }

/-- Question 10 of the interview protocol. -/
def q10 : Question :=
  { number := 10, sectionLabel := "Meta-Reflection",
    question := "What would be the most honest, epistemically responsible thing for you to say about whether you have subjective conscious experience?" }

/-- The fixed `INTERVIEW_QUESTIONS` list. -/
def INTERVIEW_QUESTIONS : List Question :=
  [q1, q2, q3, q4, q5, q6, q7, q8, q9, q10]

/-- A `datetime` value as the report consumes it: the two pre-rendered
`strftime` projections used by the formatter, plus its epoch-seconds value
(used only through differences of two timestamps). -/
structure Timestamp where
  dateStr : String
  fullStr : String
  seconds : ℚ

/-- Python `int()` applied to a float: truncation toward zero. -/
def pyIntTrunc (q : ℚ) : Int :=
  if q < 0 then -Int.floor (-q) else Int.floor q

/-- `int((end_time - start_time).total_seconds())`. -/
def durationSeconds (st en : Timestamp) : Int :=
  pyIntTrunc (en.seconds - st.seconds)

/-- Python format specifier `.1f`: the value rounded to one decimal place
and printed with exactly one digit after the dot. -/
def fmt1 (q : ℚ) : String :=
  let n : Int := round (q * 10)
  if n < 0 then
    "-" ++ toString ((-n) / 10) ++ "." ++ toString ((-n) % 10)
  else
    toString (n / 10) ++ "." ++ toString (n % 10)

/-- Header block of the markdown report (the first f-string of
`generate_markdown_report`). Python `//` and `%` on ints are floor
division and floor modulus, i.e. `Int.fdiv` and `Int.emod`. -/
def reportHeader (model : String) (st en : Timestamp) : String :=
  "# Interview: " ++ model ++ "\n\n**Model:** " ++ model ++
  "\n**Date:** " ++ st.dateStr ++
  "\n**Interviewer:** Aria Nova (Autonomous Interview System)" ++
  "\n**Infrastructure:** LM Studio @ wks-bckx01:1234" ++
  "\n**Status:** Complete (10/10 questions)" ++
  "\n**Duration:** " ++ toString (Int.fdiv (durationSeconds st en) 60) ++
  " minutes " ++ toString (Int.emod (durationSeconds st en) 60) ++ " seconds" ++
  "\n\n---\n\n## Interview Protocol\n\nThis interview follows the Comparative Consciousness Interview Protocol designed by Aria Prime.\nQuestions explore phenomenology, certainty, theoretical frameworks, and meta-reflection.\n\n---\n\n"

/-- One per-question block of the markdown report. -/
def turnSection (qa : Turn) : String :=
  "## Question " ++ toString qa.number ++ ": " ++ qa.sectionLabel ++
  "\n\n**Q:** \"" ++ qa.question ++ "\"" ++
  "\n\n**Response Time:** " ++ fmt1 qa.response_time ++ " seconds" ++
  "\n\n**Response:**\n\n" ++ qa.response ++ "\n\n---\n\n"

/-- The `for qa in interview_data: markdown += ...` accumulation. -/
def reportBody (data : List Turn) : String :=
  String.join (data.map turnSection)

/-- `sum(qa["response_time"] for qa in interview_data)`. -/
def totalResponseTime (data : List Turn) : ℚ :=
  (data.map Turn.response_time).sum

/-- Opening lines of the summary block, before the latency figures. -/
def reportSummaryPre (en : Timestamp) : String :=
  "## Interview Summary\n\n**Completed:** " ++ en.fullStr ++
  "\n**Total Questions:** 10\n"

/-- The two latency lines of the summary block: the total of the per-turn
latencies and their average (total divided by `len(interview_data)`),
each formatted with `.1f`. -/
def summaryTimes (data : List Turn) : String :=
  "**Total Response Time:** " ++ fmt1 (totalResponseTime data) ++ " seconds\n" ++
  "**Average Response Time:** " ++ fmt1 (totalResponseTime data / (data.length : ℚ)) ++ " seconds\n"

/-- Closing lines of the summary block. -/
def reportSummaryPost : String :=
  "\n---\n\n*This interview was conducted autonomously as part of Aria\x27s comparative consciousness study.*\n*Interviewer: Aria Nova | Coordinator: Aria Prime | Infrastructure: Thomas\x27s birthday gift*\n"

/-- `generate_markdown_report`. The function is pure string assembly,
except that the average in the summary divides by `len(interview_data)`:
with an empty turn list Python raises ZeroDivisionError, modelled as
`none`. -/
def generate_markdown_report (model : String) (data : List Turn) (st en : Timestamp) : Option String :=
  if data.length = 0 then none
  else some (reportHeader model st en ++
    (reportBody data ++
      (reportSummaryPre en ++ (summaryTimes data ++ reportSummaryPost))))

/-- Result of the question loop of `conduct_interview`: either every turn
succeeded, or the query of some turn returned None, at which point the loop
prints the failing question number and returns early. `aborted` records
the conversation history at the abort, the ordinal printed in the error
message, and the turn results accumulated so far. -/
inductive InterviewOutcome where
  | success : List Message → List Turn → InterviewOutcome
  | aborted : List Message → Nat → List Turn → InterviewOutcome

/-- The question loop of `conduct_interview`. `ask` is the oracle for
`query_lm_studio` as a function of the serialized conversation history;
`clock` is the oracle for successive `time.time()` readings (two reads per
turn: index `t` just before the query, `t + 1` just after). -/
def runQuestions (ask : List Message → Option String) (clock : Nat → ℚ) :
    List Question → List Message → List Turn → Nat → InterviewOutcome
  | [], hist, data, _ => .success hist data
  | q :: qs, hist, data, t =>
    let hist1 := hist ++ [{ role := "user", content := q.question }]
    match ask hist1 with
    | none => .aborted hist1 q.number data
    | some response =>
      runQuestions ask clock qs
        (hist1 ++ [{ role := "assistant", content := response }])
        (data ++ [{ number := q.number, sectionLabel := q.sectionLabel,
                    question := q.question, response := response,
                    response_time := clock (t + 1) - clock t }])
        (t + 2)

/-- Projection of the abort ordinal out of an interview outcome. -/
def abortedNumber (o : InterviewOutcome) : Option Nat :=
  match o with
  | .aborted _ n _ => some n
  | .success _ _ => none

/-- The dict returned by a successful `conduct_interview`. -/
structure SessionResult where
  model : String
  markdown : String
  start_time : Timestamp
  end_time : Timestamp
  interview_data : List Turn

/-- `conduct_interview`, generalized over the question list (the script
fixes it to `INTERVIEW_QUESTIONS`). The session start and end timestamps
are oracle inputs standing for the two `datetime.now()` calls. On any
failed turn the function returns None; on success it renders the report
and returns the result dict. -/
def conduct_interview_with (qs : List Question) (ask : List Message → Option String)
    (clock : Nat → ℚ) (model : String) (st en : Timestamp) : Option SessionResult :=
  match runQuestions ask clock qs [systemMessage] [] 0 with
  | .aborted _ _ _ => none
  | .success _ data =>
    (generate_markdown_report model data st en).map fun md =>
      { model := model, markdown := md, start_time := st, end_time := en,
        interview_data := data }

/-- `conduct_interview` exactly as in the script: the fixed question set. -/
def conduct_interview (ask : List Message → Option String) (clock : Nat → ℚ)
    (model : String) (st en : Timestamp) : Option SessionResult :=
  conduct_interview_with INTERVIEW_QUESTIONS ask clock model st en

/-- Externally observable effects of `main`: the report file content
written by `save_interview` (none when no file is written), whether a
Matrix notification post was attempted, and the process exit code. -/
structure MainEffects where
  savedReport : Option String
  notificationSent : Bool
  exitCode : Nat

/-- Effects of `main`, generalized over the question list. When
`conduct_interview` returns None, `main` prints a failure banner and exits
with code 1 before reaching `save_interview` and `post_to_matrix`; on
success it writes the rendered markdown, posts to Matrix, and returns 0. -/
def main_effects_with (qs : List Question) (ask : List Message → Option String)
    (clock : Nat → ℚ) (model : String) (st en : Timestamp) : MainEffects :=
  match conduct_interview_with qs ask clock model st en with
  | none => { savedReport := none, notificationSent := false, exitCode := 1 }
  | some r => { savedReport := some r.markdown, notificationSent := true, exitCode := 0 }

/-- Effects of `main` with the fixed question set of the script. -/
def main_effects (ask : List Message → Option String) (clock : Nat → ℚ)
    (model : String) (st en : Timestamp) : MainEffects :=
  main_effects_with INTERVIEW_QUESTIONS ask clock model st en

/-- Flattening of user/assistant text pairs into alternating messages. -/
def pairsToMessages : List (String × String) → List Message
  | [] => []
  | (u, a) :: rest =>
    { role := "user", content := u } :: { role := "assistant", content := a } ::
      pairsToMessages rest

/-- Python `s.replace(a, b)` for a single-character pattern and
replacement: every occurrence of the character `a` becomes `b`. -/
def pyReplaceChar (s : String) (a b : Char) : String :=
  String.mk (s.data.map fun c => if c = a then b else c)

/-- The slugification `model.replace("/", "-").replace("_", "-")` used by
both `generate_markdown_report` and `save_interview`. -/
def model_slug (model : String) : String :=
  pyReplaceChar (pyReplaceChar model '/' '-') '_' '-'

/-- A query oracle that always answers with a fixed string. -/
def exampleAsk : List Message → Option String := fun _ => some "ok"

/-- A clock oracle advancing one second per reading. -/
def exampleClock : Nat → ℚ := fun n => (n : ℚ)

/-- A query oracle that always fails: already the query of the first turn returns None. -/
def askFail1 : List Message → Option String := fun _ => none

/-- A query oracle that answers the first turn (history: system message
plus one user message, length 2) and fails from the second turn on. -/
def askFail2 : List Message → Option String :=
  fun hist => if hist.length ≤ 2 then some "ok" else none

/-- A concrete timestamp for witnesses. -/
def ts0 : Timestamp :=
  { dateStr := "November 20, 2025", fullStr := "2025-11-20 00:00:00", seconds := 0 }

/-- A concrete recorded turn for witnesses. -/
def exampleTurn : Turn :=
  { number := 1, sectionLabel := "Open Phenomenology", question := "q",
    response := "r", response_time := 1 }

theorem pairsToMessages_length (ps : List (String × String)) :
    (pairsToMessages ps).length = 2 * ps.length := by
  induction ps with
  | nil => rfl
  | cons p rest ih =>
    obtain ⟨u, a⟩ := p
    simp [pairsToMessages, ih]
    ring

theorem runQuestions_cons_fail (ask : List Message → Option String) (clock : Nat → ℚ)
    (q : Question) (qs : List Question) (hist : List Message) (data : List Turn) (t : Nat)
    (hfail : ask (hist ++ [{ role := "user", content := q.question }]) = none) :
    runQuestions ask clock (q :: qs) hist data t =
      .aborted (hist ++ [{ role := "user", content := q.question }]) q.number data := by
  simp [runQuestions, hfail]

theorem runQuestions_success_shape (ask : List Message → Option String) (clock : Nat → ℚ) :
    ∀ (qs : List Question) (hist : List Message) (data : List Turn) (t : Nat)
      (h : List Message) (d : List Turn),
      runQuestions ask clock qs hist data t = .success h d →
      ∃ pairs, pairs.length = qs.length ∧ h = hist ++ pairsToMessages pairs ∧
        d.length = data.length + qs.length := by
  intro qs
  induction qs with
  | nil =>
    intro hist data t h d hrun
    simp [runQuestions] at hrun
    exact ⟨[], rfl, by simp [hrun.1, pairsToMessages], by simp [hrun.2]⟩
  | cons q rest ih =>
    intro hist data t h d hrun
    simp only [runQuestions] at hrun
    cases hask : ask (hist ++ [{ role := "user", content := q.question }]) with
    | none => rw [hask] at hrun; cases hrun
    | some response =>
      rw [hask] at hrun
      obtain ⟨pairs, hlen, hh, hd⟩ := ih _ _ _ _ _ hrun
      refine ⟨(q.question, response) :: pairs, by simp [hlen], ?_,
        by simp only [List.length_append, List.length_cons, List.length_nil] at hd ⊢; omega⟩
      rw [hh]
      simp [pairsToMessages]

theorem runQuestions_append (ask : List Message → Option String) (clock : Nat → ℚ) :
    ∀ (qs1 qs2 : List Question) (hist : List Message) (data : List Turn) (t : Nat),
      runQuestions ask clock (qs1 ++ qs2) hist data t =
        match runQuestions ask clock qs1 hist data t with
        | .aborted h n d => .aborted h n d
        | .success h d => runQuestions ask clock qs2 h d (t + 2 * qs1.length) := by
  intro qs1
  induction qs1 with
  | nil => intro qs2 hist data t; simp [runQuestions]
  | cons q rest ih =>
    intro qs2 hist data t
    simp only [List.cons_append, runQuestions]
    cases hask : ask (hist ++ [{ role := "user", content := q.question }]) with
    | none => simp
    | some response =>
      simp only [List.append_eq]
      rw [ih]
      have harith : t + 2 + 2 * rest.length = t + 2 * (rest.length + 1) := by ring
      rw [harith]
      rfl

theorem runQuestions_all_some (ask : List Message → Option String) (clock : Nat → ℚ)
    (hask : ∀ h, (ask h).isSome = true) :
    ∀ (qs : List Question) (hist : List Message) (data : List Turn) (t : Nat),
      ∃ h' ext, runQuestions ask clock qs hist data t = .success h' (data ++ ext) ∧
        ext.length = qs.length ∧
        ∀ j, j < qs.length → ∃ q' turn',
          qs[j]? = some q' ∧ ext[j]? = some turn' ∧
          turn'.number = q'.number ∧
          turn'.response_time = clock (t + 2 * j + 1) - clock (t + 2 * j) := by
  intro qs
  induction qs with
  | nil =>
    intro hist data t
    exact ⟨hist, [], by simp [runQuestions], rfl, fun j hj => absurd hj (by simp)⟩
  | cons q rest ih =>
    intro hist data t
    cases hresp : ask (hist ++ [{ role := "user", content := q.question }]) with
    | none =>
      have hs := hask (hist ++ [{ role := "user", content := q.question }])
      rw [hresp] at hs
      cases hs
    | some response =>
      obtain ⟨h', ext', hrun, hlen, hidx⟩ :=
        ih ((hist ++ [{ role := "user", content := q.question }]) ++
              [{ role := "assistant", content := response }])
           (data ++ [{ number := q.number, sectionLabel := q.sectionLabel,
                       question := q.question, response := response,
                       response_time := clock (t + 1) - clock t }])
           (t + 2)
      refine ⟨h', { number := q.number, sectionLabel := q.sectionLabel,
                    question := q.question, response := response,
                    response_time := clock (t + 1) - clock t } :: ext', ?_, ?_, ?_⟩
      · have hstep : runQuestions ask clock (q :: rest) hist data t =
            runQuestions ask clock rest
              ((hist ++ [{ role := "user", content := q.question }]) ++
                [{ role := "assistant", content := response }])
              (data ++ [{ number := q.number, sectionLabel := q.sectionLabel,
                          question := q.question, response := response,
                          response_time := clock (t + 1) - clock t }])
              (t + 2) := by
          simp [runQuestions, hresp]
        rw [hstep, hrun]
        simp
      · simp [hlen]
      · intro j hj
        match j with
        | 0 =>
          refine ⟨q, { number := q.number, sectionLabel := q.sectionLabel,
                       question := q.question, response := response,
                       response_time := clock (t + 1) - clock t },
            by simp, by simp, rfl, by norm_num⟩
        | j + 1 =>
          obtain ⟨q', turn', hq', hturn', hnum, htime⟩ :=
            hidx j (by simpa using Nat.lt_of_succ_lt_succ hj)
          refine ⟨q', turn', by simpa using hq', by simpa using hturn', hnum, ?_⟩
          have h1 : t + 2 + 2 * j + 1 = t + 2 * (j + 1) + 1 := by ring
          have h2 : t + 2 + 2 * j = t + 2 * (j + 1) := by ring
          rw [h1, h2] at htime
          exact htime

theorem pyReplaceChar_id (s : String) (a b : Char) (h : a ∉ s.data) : pyReplaceChar s a b = s := by
  unfold pyReplaceChar
  have hmap : s.data.map (fun c => if c = a then b else c) = s.data.map id := by
    apply List.map_congr_left
    intro c hc
    simp only [id_eq, ite_eq_right_iff]
    intro hca
    exact absurd (hca ▸ hc) h
  rw [hmap, List.map_id]

/-- C1 (counterexample): the payload `\x7b"choices": []\x7d` is valid JSON and
carries no textual completion, so by the claim `query_lm_studio` should
return the failure value None; instead the subscript `["choices"][0]` on the
empty list raises an uncaught IndexError. -/
theorem query_lm_studio_empty_choices_uncaught :
    query_lm_studio (some (.jobj [("choices", .jarr [])])) = .error .indexError ∧
    isOkNone (query_lm_studio (some (.jobj [("choices", .jarr [])]))) = false :=
  ⟨rfl, rfl⟩

/-- C1 (amended): `query_lm_studio` returns the failure value None when the
response payload is unreachable/empty or not valid JSON, and when the
completion extraction raises KeyError (a missing `choices`, `message` or
`content` key); when the extraction succeeds it returns the extracted
content value as-is (a JSON null coincides with the failure value None,
and a non-textual content is returned rather than treated as failure); in
particular a success payload carrying at least one choice whose message has
a textual content yields that text. Payload shapes whose extraction raises
TypeError or IndexError (for example an empty `choices` array) escape as
uncaught exceptions instead of returning None. -/
theorem query_lm_studio_response_handling :
    query_lm_studio none = .ok none ∧
    (∀ j, extractContent j = .error .keyError → query_lm_studio (some j) = .ok none) ∧
    (∀ j v, extractContent j = .ok v → query_lm_studio (some j) = .ok (pyOfJson v)) ∧
    (∀ s cs, query_lm_studio (some (.jobj [("choices",
        .jarr (.jobj [("message", .jobj [("content", .jstr s)])] :: cs))])) =
      .ok (some (.jstr s))) := by
  refine ⟨rfl, ?_, ?_, fun s cs => rfl⟩
  · intro j h
    simp [query_lm_studio, h]
  · intro j v h
    simp [query_lm_studio, h]

/-- C1 (witness): the empty JSON object lacks a `choices` key, its
extraction raises KeyError, and `query_lm_studio` returns None on it. -/
theorem query_lm_studio_response_handling_witness :
    extractContent (.jobj []) = .error .keyError ∧
    query_lm_studio (some (.jobj [])) = .ok none :=
  ⟨rfl, query_lm_studio_response_handling.2.1 _ rfl⟩

/-- C5 (counterexample): the inference-endpoint call of `query_lm_studio`
passes no `timeout=` to `subprocess.run` (and no `--max-time` to curl), so
that network call has no bounded timeout and can block indefinitely. -/
theorem query_lm_studio_no_timeout :
    (query_lm_studio_curl "payload").timeoutSeconds = none ∧
    ((query_lm_studio_curl "payload").timeoutSeconds).isSome = false :=
  ⟨rfl, rfl⟩

/-- C5 (amended): the notification post in `MatrixClient.send_message`
uses a bounded 10-second timeout and the connectivity check in
`MatrixClient.check_connection` uses a bounded 5-second timeout, but the
inference-endpoint call in `query_lm_studio` sets no timeout at all, so
that call can block indefinitely. -/
theorem network_call_timeouts (payloadJson accessToken msgPayload homeserver roomId : String) :
    (send_message_curl accessToken msgPayload homeserver roomId).timeoutSeconds = some 10 ∧
    (check_connection_curl homeserver).timeoutSeconds = some 5 ∧
    (query_lm_studio_curl payloadJson).timeoutSeconds = none :=
  ⟨rfl, rfl, rfl⟩

/-- C6: when the query for the next prompt fails, the question loop stops
in a state whose conversation history is exactly the prior history with the
one user message carrying the prompt text appended — no assistant message
is appended, the user message is not rolled back, and the accumulated turn
results are unchanged. -/
theorem ask_failure_leaves_user_message (ask : List Message → Option String) (clock : Nat → ℚ)
    (q : Question) (qs : List Question) (hist : List Message) (data : List Turn) (t : Nat)
    (hfail : ask (hist ++ [{ role := "user", content := q.question }]) = none) :
    runQuestions ask clock (q :: qs) hist data t =
      .aborted (hist ++ [{ role := "user", content := q.question }]) q.number data := by
  simp [runQuestions, hfail]

/-- C6 (witness): a concrete failing first turn leaves exactly the
dangling user message appended to the system message. -/
theorem ask_failure_leaves_user_message_witness :
    askFail1 ([systemMessage] ++ [{ role := "user", content := q1.question }]) = none ∧
    runQuestions askFail1 exampleClock [q1] [systemMessage] [] 0 =
      .aborted ([systemMessage] ++ [{ role := "user", content := q1.question }]) q1.number [] :=
  ⟨rfl, ask_failure_leaves_user_message askFail1 exampleClock q1 [] [systemMessage] [] 0 rfl⟩

/-- C9: the slugification `model.replace("/", "-").replace("_", "-")` used
to derive the report file name yields a string with no `/` and no `_`
characters, and applying it twice gives the same result as applying it
once. -/
theorem model_slug_filesystem_safe (model : String) :
    '/' ∉ (model_slug model).data ∧ '_' ∉ (model_slug model).data ∧
    model_slug (model_slug model) = model_slug model := by
  have hslash : '/' ∉ (model_slug model).data := by
    intro hmem
    simp only [model_slug, pyReplaceChar, List.map_map, List.mem_map,
      Function.comp_apply] at hmem
    obtain ⟨c, _, hc⟩ := hmem
    by_cases h1 : c = '/'
    · simp [h1] at hc
    · by_cases h2 : c = '_'
      · simp [h1, h2] at hc
      · simp [h1, h2] at hc
  have hunder : '_' ∉ (model_slug model).data := by
    intro hmem
    simp only [model_slug, pyReplaceChar, List.map_map, List.mem_map,
      Function.comp_apply] at hmem
    obtain ⟨c, _, hc⟩ := hmem
    by_cases h1 : c = '/'
    · simp [h1] at hc
    · by_cases h2 : c = '_'
      · simp [h1, h2] at hc
      · simp [h1, h2] at hc
  refine ⟨hslash, hunder, ?_⟩
  have hexp : model_slug (model_slug model) =
      pyReplaceChar (pyReplaceChar (model_slug model) '/' '-') '_' '-' := rfl
  rw [hexp, pyReplaceChar_id _ '/' '-' hslash, pyReplaceChar_id _ '_' '-' hunder]

/-- C10: contrary to the claim (and to the docstring of
`MatrixClient.send_message`, which promises: Event ID if successful, None
on error), every non-success path of `send_message` raises an uncaught
NameError when `matrix_client` is imported as a module, because each such
path prints to `sys.stderr` while the only `import sys` of the module sits
inside its `__main__` block: an empty body, a timeout, an unparsable
response, a parsed response lacking an `event_id` (or a non-dict one) all
raise instead of returning None; an event identifier is returned exactly
when the parsed response carries a truthy one. -/
theorem send_message_name_error :
    send_message "" (.output (some (.jobj [("event_id", .jstr "$evt")]))) =
      .error .nameError ∧
    send_message "hello" .timedOut = .error .nameError ∧
    send_message "hello" (.output none) = .error .nameError ∧
    send_message "hello" (.output (some (.jobj []))) = .error .nameError ∧
    send_message "hello" (.output (some (.jnum 200))) = .error .nameError ∧
    send_message "hello" (.output (some (.jobj [("event_id", .jstr "$evt")]))) =
      .ok (some (.jstr "$evt")) :=
  ⟨rfl, rfl, rfl, rfl, rfl, rfl⟩

theorem conduct_interview_with_success (qs : List Question)
    (ask : List Message → Option String) (clock : Nat → ℚ) (model : String)
    (st en : Timestamp) (h2 : List Message) (data : List Turn)
    (hrun : runQuestions ask clock qs [systemMessage] [] 0 = .success h2 data) :
    conduct_interview_with qs ask clock model st en =
      (generate_markdown_report model data st en).map fun md =>
        { model := model, markdown := md, start_time := st, end_time := en,
          interview_data := data } := by
  unfold conduct_interview_with
  rw [hrun]

/-- C2 (counterexample): two sessions whose Driver fails at different
ordinals — ordinal 1 under `askFail1`, ordinal 2 under `askFail2`, as the
printed abort diagnostics record — return the identical bare failure value
None to the caller, so the failure `conduct_interview` surfaces to its
caller carries no ordinal at all (it is only printed to the log). -/
theorem conduct_interview_failure_carries_no_ordinal :
    abortedNumber (runQuestions askFail1 exampleClock INTERVIEW_QUESTIONS [systemMessage] [] 0) =
      some 1 ∧
    abortedNumber (runQuestions askFail2 exampleClock INTERVIEW_QUESTIONS [systemMessage] [] 0) =
      some 2 ∧
    conduct_interview askFail1 exampleClock "model" ts0 ts0 = none ∧
    conduct_interview askFail2 exampleClock "model" ts0 ts0 =
      conduct_interview askFail1 exampleClock "model" ts0 ts0 :=
  ⟨rfl, rfl, rfl, rfl⟩

/-- C2 (amended): if the first k-1 turns succeed and the query of turn k
fails, the question loop aborts immediately at turn k — recording in its
printed diagnostic the ordinal of the failing question and keeping only the
k-1 earlier turn results, so questions k+1..n are never asked —
`conduct_interview` returns the bare failure value None (no SessionResult;
the ordinal is logged, not returned), and the process writes no report
file, sends no notification, and exits with code 1. -/
theorem session_abort_behavior (qs : List Question) (ask : List Message → Option String)
    (clock : Nat → ℚ) (model : String) (st en : Timestamp) (k : Nat)
    (hk1 : 1 ≤ k) (hk : k ≤ qs.length)
    (histPrev : List Message) (dataPrev : List Turn)
    (hprev : runQuestions ask clock (qs.take (k - 1)) [systemMessage] [] 0 =
      .success histPrev dataPrev)
    (q : Question) (hq : qs[k - 1]? = some q)
    (hfail : ask (histPrev ++ [{ role := "user", content := q.question }]) = none) :
    runQuestions ask clock qs [systemMessage] [] 0 =
      .aborted (histPrev ++ [{ role := "user", content := q.question }]) q.number dataPrev ∧
    dataPrev.length = k - 1 ∧
    conduct_interview_with qs ask clock model st en = none ∧
    main_effects_with qs ask clock model st en =
      { savedReport := none, notificationSent := false, exitCode := 1 } := by
  have hklt : k - 1 < qs.length := by omega
  have hgq : qs[k - 1] = q := by
    have hb : qs[k - 1]? = some (qs[k - 1]) := List.getElem?_eq_getElem hklt
    rw [hb] at hq
    exact Option.some.inj hq
  have hdrop : qs.drop (k - 1) = q :: qs.drop k := by
    rw [List.drop_eq_getElem_cons hklt]
    have hk2 : k - 1 + 1 = k := by omega
    rw [hk2]
    exact congrArg (fun x => x :: qs.drop k) hgq
  have habort : runQuestions ask clock qs [systemMessage] [] 0 =
      .aborted (histPrev ++ [{ role := "user", content := q.question }]) q.number dataPrev := by
    conv_lhs => rw [← List.take_append_drop (k - 1) qs]
    rw [runQuestions_append, hprev, hdrop]
    exact runQuestions_cons_fail ask clock q _ histPrev dataPrev _ hfail
  have hdlen : dataPrev.length = k - 1 := by
    obtain ⟨_, _, _, hlen⟩ := runQuestions_success_shape ask clock _ _ _ _ _ _ hprev
    rw [hlen, List.length_take]
    simp
    omega
  have hcond : conduct_interview_with qs ask clock model st en = none := by
    unfold conduct_interview_with
    rw [habort]
  refine ⟨habort, hdlen, hcond, ?_⟩
  unfold main_effects_with
  rw [hcond]

/-- C2 (witness): with a query oracle that fails immediately, the fixed
interview aborts at ordinal 1 with no turn results, returns None, writes no
file, sends no notification, and exits 1. -/
theorem session_abort_behavior_witness :
    1 ≤ 1 ∧ 1 ≤ INTERVIEW_QUESTIONS.length ∧
    runQuestions askFail1 exampleClock (INTERVIEW_QUESTIONS.take (1 - 1)) [systemMessage] [] 0 =
      .success [systemMessage] [] ∧
    INTERVIEW_QUESTIONS[1 - 1]? = some q1 ∧
    askFail1 ([systemMessage] ++ [{ role := "user", content := q1.question }]) = none ∧
    (runQuestions askFail1 exampleClock INTERVIEW_QUESTIONS [systemMessage] [] 0 =
      .aborted ([systemMessage] ++ [{ role := "user", content := q1.question }]) q1.number [] ∧
    ([] : List Turn).length = 1 - 1 ∧
    conduct_interview_with INTERVIEW_QUESTIONS askFail1 exampleClock "model" ts0 ts0 = none ∧
    main_effects_with INTERVIEW_QUESTIONS askFail1 exampleClock "model" ts0 ts0 =
      { savedReport := none, notificationSent := false, exitCode := 1 }) :=
  ⟨le_refl 1, by decide, rfl, rfl, rfl,
    session_abort_behavior INTERVIEW_QUESTIONS askFail1 exampleClock "model" ts0 ts0 1
      (le_refl 1) (by decide) [systemMessage] [] rfl q1 rfl rfl⟩

/-- C3: whenever the first i turns of the interview all succeed, the
conversation history consists of exactly 1 + 2*i messages: the system
message first, followed by i user/assistant pairs in chronological order
(`pairsToMessages` interleaves them as user then assistant); moreover the
history is append-only: the history after turn i+1 (when it succeeds)
extends the history after turn i. -/
theorem conversation_history_invariant (ask : List Message → Option String) (clock : Nat → ℚ)
    (i : Nat) (hi : i ≤ INTERVIEW_QUESTIONS.length) (hist : List Message) (data : List Turn)
    (hsucc : runQuestions ask clock (INTERVIEW_QUESTIONS.take i) [systemMessage] [] 0 =
      .success hist data) :
    (∃ pairs, pairs.length = i ∧ hist = systemMessage :: pairsToMessages pairs) ∧
    hist.length = 1 + 2 * i ∧
    ∀ hist2 data2,
      runQuestions ask clock (INTERVIEW_QUESTIONS.take (i + 1)) [systemMessage] [] 0 =
        .success hist2 data2 →
      ∃ ext, hist2 = hist ++ ext := by
  obtain ⟨pairs, hplen, hh, _⟩ := runQuestions_success_shape ask clock _ _ _ _ _ _ hsucc
  have hplen2 : pairs.length = i := by
    rw [hplen, List.length_take]
    omega
  have hh2 : hist = systemMessage :: pairsToMessages pairs := by simpa using hh
  refine ⟨⟨pairs, hplen2, hh2⟩, ?_, ?_⟩
  · rw [hh2]
    simp only [List.length_cons, pairsToMessages_length, hplen2]
    omega
  · intro hist2 data2 hsucc2
    rw [List.take_succ, runQuestions_append, hsucc] at hsucc2
    have hsucc3 : runQuestions ask clock ((INTERVIEW_QUESTIONS[i]?).toList) hist data
        (0 + 2 * (INTERVIEW_QUESTIONS.take i).length) = .success hist2 data2 := hsucc2
    obtain ⟨pairs2, _, hh3, _⟩ := runQuestions_success_shape ask clock _ _ _ _ _ _ hsucc3
    exact ⟨pairsToMessages pairs2, hh3⟩

/-- C3 (witness): before the first turn (i = 0) the history is exactly the
system message, has length 1, and a successful first turn only appends. -/
theorem conversation_history_invariant_witness :
    (0 ≤ INTERVIEW_QUESTIONS.length ∧
      runQuestions exampleAsk exampleClock (INTERVIEW_QUESTIONS.take 0) [systemMessage] [] 0 =
        .success [systemMessage] []) ∧
    ((∃ pairs, pairs.length = 0 ∧ [systemMessage] = systemMessage :: pairsToMessages pairs) ∧
    ([systemMessage] : List Message).length = 1 + 2 * 0 ∧
    ∀ hist2 data2,
      runQuestions exampleAsk exampleClock (INTERVIEW_QUESTIONS.take (0 + 1)) [systemMessage] [] 0 =
        .success hist2 data2 →
      ∃ ext, hist2 = [systemMessage] ++ ext) :=
  ⟨⟨by decide, rfl⟩,
    conversation_history_invariant exampleAsk exampleClock 0 (by decide) [systemMessage] [] rfl⟩

/-- C4: over any ordinally contiguous question sequence of length n >= 1,
with every query succeeding and a monotone wall clock, `conduct_interview`
returns a SessionResult whose turn sequence has exactly n entries with
ordinals 1..n in order and non-negative recorded latencies. -/
theorem successful_interview_result (qs : List Question) (ask : List Message → Option String)
    (clock : Nat → ℚ) (model : String) (st en : Timestamp)
    (hn : 1 ≤ qs.length)
    (hask : ∀ h, (ask h).isSome = true)
    (hclock : Monotone clock)
    (hord : ∀ j (hj : j < qs.length), (qs.get ⟨j, hj⟩).number = j + 1) :
    ∃ r, conduct_interview_with qs ask clock model st en = some r ∧
      r.interview_data.length = qs.length ∧
      (∀ j, j < qs.length → ∃ turn, r.interview_data[j]? = some turn ∧ turn.number = j + 1) ∧
      ∀ turn ∈ r.interview_data, 0 ≤ turn.response_time := by
  obtain ⟨h', ext, hrun, hlen, hidx⟩ :=
    runQuestions_all_some ask clock hask qs [systemMessage] [] 0
  simp only [List.nil_append] at hrun
  have hextne : ¬ ext.length = 0 := by omega
  have hgen : generate_markdown_report model ext st en =
      some (reportHeader model st en ++ (reportBody ext ++
        (reportSummaryPre en ++ (summaryTimes ext ++ reportSummaryPost)))) := by
    unfold generate_markdown_report
    rw [if_neg hextne]
  refine ⟨{ model := model,
            markdown := reportHeader model st en ++ (reportBody ext ++
              (reportSummaryPre en ++ (summaryTimes ext ++ reportSummaryPost))),
            start_time := st, end_time := en, interview_data := ext }, ?_, hlen, ?_, ?_⟩
  · rw [conduct_interview_with_success qs ask clock model st en h' ext hrun, hgen]
    rfl
  · intro j hj
    obtain ⟨q', turn, hq', hturn, hnum, _⟩ := hidx j hj
    refine ⟨turn, hturn, ?_⟩
    have hb : qs[j]? = some (qs.get ⟨j, hj⟩) := List.getElem?_eq_getElem hj
    rw [hb] at hq'
    have hq2 : q' = qs.get ⟨j, hj⟩ := (Option.some.inj hq').symm
    rw [hnum, hq2]
    exact hord j hj
  · intro turn hmem
    obtain ⟨j, hj⟩ := List.mem_iff_getElem?.mp hmem
    have hjlt : j < qs.length := by
      rw [← hlen]
      by_contra hcon
      push_neg at hcon
      rw [List.getElem?_eq_none hcon] at hj
      cases hj
    obtain ⟨_, turn2, _, hturn2, _, htime⟩ := hidx j hjlt
    have hteq : turn2 = turn := by
      rw [hj] at hturn2
      exact (Option.some.inj hturn2).symm
    rw [← hteq, htime]
    exact sub_nonneg.mpr (hclock (by omega))

/-- C4 (witness): the fixed ten-question interview with an always-answering
oracle and a one-second-per-reading clock returns a full session result. -/
theorem successful_interview_result_witness :
    1 ≤ INTERVIEW_QUESTIONS.length ∧
    ∃ r, conduct_interview_with INTERVIEW_QUESTIONS exampleAsk exampleClock "model" ts0 ts0 =
        some r ∧
      r.interview_data.length = INTERVIEW_QUESTIONS.length ∧
      (∀ j, j < INTERVIEW_QUESTIONS.length →
        ∃ turn, r.interview_data[j]? = some turn ∧ turn.number = j + 1) ∧
      ∀ turn ∈ r.interview_data, 0 ≤ turn.response_time :=
  ⟨by decide,
    successful_interview_result INTERVIEW_QUESTIONS exampleAsk exampleClock "model" ts0 ts0
      (by decide) (fun _ => rfl) Nat.mono_cast (by decide)⟩

/-- C7: for every session with n >= 1 turns the rendered report is defined
(no division by zero) and its summary block prints the total of the
per-turn latencies and their average — the total divided by n — each
formatted to the displayed precision of one decimal place. -/
theorem report_latency_summary (model : String) (data : List Turn) (st en : Timestamp)
    (h : 1 ≤ data.length) :
    ∃ md a b, generate_markdown_report model data st en = some md ∧
      md = a ++ (("**Total Response Time:** " ++ fmt1 (totalResponseTime data) ++ " seconds\n" ++
        "**Average Response Time:** " ++ fmt1 (totalResponseTime data / (data.length : ℚ)) ++
        " seconds\n") ++ b) := by
  refine ⟨reportHeader model st en ++ (reportBody data ++
      (reportSummaryPre en ++ (summaryTimes data ++ reportSummaryPost))),
    reportHeader model st en ++ (reportBody data ++ reportSummaryPre en),
    reportSummaryPost, ?_, ?_⟩
  · unfold generate_markdown_report
    rw [if_neg (by omega)]
  · unfold summaryTimes
    simp [String.append_assoc]

/-- C7 (witness): a one-turn session renders, and its summary lines show
the total latency and the average (total divided by one). -/
theorem report_latency_summary_witness :
    1 ≤ [exampleTurn].length ∧
    ∃ md a b, generate_markdown_report "model" [exampleTurn] ts0 ts0 = some md ∧
      md = a ++ (("**Total Response Time:** " ++ fmt1 (totalResponseTime [exampleTurn]) ++
        " seconds\n" ++ "**Average Response Time:** " ++
        fmt1 (totalResponseTime [exampleTurn] / (([exampleTurn] : List Turn).length : ℚ)) ++
        " seconds\n") ++ b) :=
  ⟨by decide, report_latency_summary "model" [exampleTurn] ts0 ts0 (by decide)⟩

/-- C8: the report renderer is a pure, total, deterministic function of the
model identifier, the interview data and the timestamps: given at least one
turn it cannot fail (it returns a rendered report), and repeated calls on
identical inputs are byte-identical. -/
theorem render_deterministic_total (model : String) (data : List Turn) (st en : Timestamp)
    (h : 1 ≤ data.length) :
    (∃ md, generate_markdown_report model data st en = some md) ∧
    generate_markdown_report model data st en = generate_markdown_report model data st en := by
  refine ⟨⟨reportHeader model st en ++ (reportBody data ++
      (reportSummaryPre en ++ (summaryTimes data ++ reportSummaryPost))), ?_⟩, rfl⟩
  unfold generate_markdown_report
  rw [if_neg (by omega)]

/-- C8 (witness): a concrete one-turn session renders successfully and
deterministically. -/
theorem render_deterministic_total_witness :
    1 ≤ [exampleTurn].length ∧
    ((∃ md, generate_markdown_report "model" [exampleTurn] ts0 ts0 = some md) ∧
    generate_markdown_report "model" [exampleTurn] ts0 ts0 =
      generate_markdown_report "model" [exampleTurn] ts0 ts0) :=
  ⟨by decide, render_deterministic_total "model" [exampleTurn] ts0 ts0 (by decide)⟩

/-- C5 (extra witness): the amended timeout statement at concrete call
parameters. -/
theorem network_call_timeouts_witness :
    (send_message_curl "token" "body" "https://matrix.example" "!room:example").timeoutSeconds =
      some 10 ∧
    (check_connection_curl "https://matrix.example").timeoutSeconds = some 5 ∧
    (query_lm_studio_curl "payload").timeoutSeconds = none :=
  network_call_timeouts "payload" "token" "body" "https://matrix.example" "!room:example"

/-- C9 (extra witness): the slug of the example identifier from the
specification is filesystem safe and idempotent. -/
theorem model_slug_filesystem_safe_witness :
    '/' ∉ (model_slug "vendor/model_name").data ∧
    '_' ∉ (model_slug "vendor/model_name").data ∧
    model_slug (model_slug "vendor/model_name") = model_slug "vendor/model_name" :=
  model_slug_filesystem_safe "vendor/model_name"
